import Mathlib

/-!
# FIRST-Robotics-Volunteer-Portal — verification of spec claims

Shallow embedding of the frontend React components (`Results.jsx`,
`Questionnaire.jsx`, `CreateNumButtons.jsx`, `NavigationMenu.jsx`, `Page.jsx`,
`questionnaireUtils.js`) and, where the backend scoring engine is absent from
the sources, a model of it built from the specification.

JavaScript strings are embedded as `List Char`; JS objects used as maps are
embedded as functions `Nat → Option _`; fetch calls are embedded by passing the
outcome of the network round-trip as an explicit parameter, with the `try`
body returning `Except` and the surrounding `catch` turning errors back into
ordinary state updates.
-/

/-! ## JavaScript string primitives used by `Results.jsx` -/

/-- Whitespace test used by `String.prototype.trim` (restricted to the ASCII
whitespace characters that can actually appear in the wire strings). -/
def isWS (c : Char) : Bool :=
  c = ' ' ∨ c = '\t' ∨ c = '\n' ∨ c = '\r'

/-- `String.prototype.trim`: strip leading and trailing whitespace. -/
def jsTrim (s : List Char) : List Char :=
  ((s.dropWhile isWS).reverse.dropWhile isWS).reverse

/-- `String.prototype.split(sep)` for a single-character separator.
`"".split(sep)` yields `[""]`, i.e. `jsSplit sep [] = [[]]`. -/
def jsSplit (sep : Char) : List Char → List (List Char)
  | [] => [[]]
  | c :: rest =>
    if c = sep then
      [] :: jsSplit sep rest
    else
      match jsSplit sep rest with
      | [] => [[c]]
      | t :: ts => (c :: t) :: ts

/-! ## `Results.jsx` — options effect, button rendering, navigation -/

/-- The options effect of `Results.jsx` (lines 48–55).  The guard
`if (currentResults?.results?.["Best fit roles"])` tests JS truthiness: the
field must be present (`some`) and a nonempty string.  In that case
`newOptions = field.trim().split(",") || []`; `split` always returns an array
(truthy), so the `|| []` fallback is never taken and we embed the branch as
the split itself.  Otherwise `setOptions([])`. -/
def optionsEffect (bestFit : Option (List Char)) : List (List Char) :=
  match bestFit with
  | some s => if s ≠ [] then jsSplit ',' (jsTrim s) else []
  | none => []

/-- `dynamicButtonClick` (lines 98–111): the role name placed in the
navigation state is `roleName.trim()`. -/
def dynamicButtonClick (roleName : List Char) : List Char :=
  jsTrim roleName

/-- A rendered role button: its visible label and the role name its click
handler passes to navigation. -/
structure RenderedButton where
  label : List Char
  navRoleName : List Char
  deriving DecidableEq, Repr

/-- Button rendering of `Results.jsx` (lines 149–158):
`options.slice(0, 3).map(option => <button onClick={() => dynamicButtonClick(option)}>{option.trim()}</button>)`. -/
def renderButtons (options : List (List Char)) : List RenderedButton :=
  (options.take 3).map (fun o => { label := jsTrim o, navRoleName := dynamicButtonClick o })

/-! ## `questionnaireUtils.js` — completed-questions map -/

/-- The `completedQuestions` JS object, observed as a map from question id to
the bound answer list (`none` when the id is not a key). -/
abbrev QMap := Nat → Option (List String)

/-- `addCompletedQuestion` (part_001 lines 18–23):
`setCompletedQuestions(prev => ({ ...prev, [id]: [answer] }))` — the spread
keeps every other key's binding and binds `id` to the one-element list. -/
def addCompletedQuestion (prev : QMap) (id : Nat) (answer : String) : QMap :=
  fun j => if j = id then some [answer] else prev j

/-- `setCompletedQuestionsMulti` (part_001 lines 32–37):
`{ ...prev, [id]: answersArray }` — replaces the whole answer list for `id`. -/
def setCompletedQuestionsMulti (prev : QMap) (id : Nat) (answersArray : List String) : QMap :=
  fun j => if j = id then some answersArray else prev j

/-- `removeCompletedQuestion` (part_001 lines 45–53): guarded by
`if (id in completedQuestions)`; when the key is present the setter deletes it
from a shallow copy, otherwise nothing happens. -/
def removeCompletedQuestion (completedQuestions : QMap) (id : Nat) : QMap :=
  if (completedQuestions id).isSome then
    fun j => if j = id then none else completedQuestions j
  else
    completedQuestions

/-! ## `CreateNumButtons.jsx` — button click handler -/

/-- One invocation of the `saveAnswer` prop, with the arguments it was
called with: `saveAnswer(sessionId, data.id, optionKey, data.question)`. -/
structure SaveCall where
  sessionId : Option String
  questionId : Nat
  answer : String
  question : String
  deriving DecidableEq, Repr

/-- Observable outcome of one `handleButtonClick`: the new `selectedButton`
state, the new `completedQuestions` map, and the list of `saveAnswer`
invocations the handler issued. -/
structure ClickOutcome where
  selectedButton : Option String
  completedQuestions : QMap
  saveCalls : List SaveCall

/-- `handleButtonClick` of `CreateNumButtons.jsx` (lines 38–53).  `optionKey`
is the option string resolved from the clicked button's index
(`data.options[parseInt(...)]`); `selected` is the current `selectedButton`
state (`null` embedded as `none`).  `optionKey === selectedButton` holds just
when `selected = some optionKey` (a string is never `===` to `null`). -/
def handleButtonClick (selected : Option String) (cq : QMap) (dataId : Nat)
    (question : String) (sessionId : Option String) (optionKey : String) : ClickOutcome :=
  if selected = some optionKey then
    { selectedButton := none
      completedQuestions := removeCompletedQuestion cq dataId
      saveCalls := [] }
  else
    { selectedButton := some optionKey
      completedQuestions := addCompletedQuestion cq dataId optionKey
      saveCalls := [{ sessionId := sessionId, questionId := dataId,
                      answer := optionKey, question := question }] }

/-! ## `NavigationMenu.jsx` and the `Questionnaire.jsx` navigation handlers -/

/-- `handleNextAnswerClick` of `Questionnaire.jsx` (lines 117–119):
`setQuestionId(prev => prev + numSkips)`. -/
def handleNextAnswerClick (questionId numSkips : Int) : Int :=
  questionId + numSkips

/-- `handleBackAnswerClick` of `Questionnaire.jsx` (lines 122–124):
`setQuestionId(prev => prev - numSkips)`. -/
def handleBackAnswerClick (questionId numSkips : Int) : Int :=
  questionId - numSkips

/-- `handleNextClick` of `NavigationMenu.jsx` (part_003 lines 33–41):
skip 3 forward when `questionId === 1 && skipPhysicalQuestions`, else 1. -/
def handleNextClick (questionId : Int) (skipPhysicalQuestions : Bool) : Int :=
  if questionId = 1 ∧ skipPhysicalQuestions then
    handleNextAnswerClick questionId 3
  else
    handleNextAnswerClick questionId 1

/-- `handleBackClick` of `NavigationMenu.jsx` (part_003 lines 44–52):
skip 3 back when `questionId === 4 && skipPhysicalQuestions`, else 1. -/
def handleBackClick (questionId : Int) (skipPhysicalQuestions : Bool) : Int :=
  if questionId = 4 ∧ skipPhysicalQuestions then
    handleBackAnswerClick questionId 3
  else
    handleBackAnswerClick questionId 1

/-! ## `Questionnaire.jsx` — `saveAnswer` -/

/-- Outcome of the `fetch("/api/save-answer")` round-trip: the server replied
OK (with the `skip` field of the JSON body), replied with a non-OK HTTP
status, or the fetch itself threw. -/
inductive SaveOutcome where
  | ok (skip : Bool)
  | httpError (status : Nat)
  | fetchFailed
  deriving DecidableEq, Repr

/-- The component state of `Questionnaire.jsx` touched by `saveAnswer`. -/
structure QuestionnaireState where
  questionId : Int
  sessionId : Option String
  completedQuestions : QMap
  error : Option String
  skipPhysicalQuestions : Option Bool
  totalQuestions : Int

/-- JS truthiness of a nullable string: `null`/`undefined` and `""` are falsy. -/
def jsTruthy (s : Option String) : Bool :=
  match s with
  | some str => str ≠ ""
  | none => false

/-- The `try` body of `saveAnswer` (`Questionnaire.jsx` lines 77–103): when
`autoSave && sessionId`, perform the fetch; a non-OK status or a failed fetch
throws, an OK response may flip the physical-questions skip state when
`questionId === 1`. -/
def saveAnswerTry (st : QuestionnaireState) (sessionId : Option String)
    (questionId : Int) (autoSave : Bool) (outcome : SaveOutcome) :
    Except String QuestionnaireState :=
  if autoSave ∧ jsTruthy sessionId then
    match outcome with
    | .ok skip =>
      if questionId = 1 then
        if skip then
          .ok { st with skipPhysicalQuestions := some true, totalQuestions := 10 }
        else
          .ok { st with skipPhysicalQuestions := some false, totalQuestions := 12 }
      else
        .ok st
    | .httpError status => .error ("HTTP error, status: " ++ toString status)
    | .fetchFailed => .error "Failed to fetch"
  else
    .ok st

/-- `saveAnswer` (`Questionnaire.jsx` lines 77–109): the `catch` block turns
any thrown error into the temporary warning
`'Failed to save answer - your progress may not be saved'` and returns
normally. -/
def saveAnswer (st : QuestionnaireState) (sessionId : Option String)
    (questionId : Int) (autoSave : Bool) (outcome : SaveOutcome) : QuestionnaireState :=
  match saveAnswerTry st sessionId questionId autoSave outcome with
  | .ok st' => st'
  | .error _ => { st with error := some "Failed to save answer - your progress may not be saved" }

/-! ## `Page.jsx` — `getRoleLinks` -/

/-- The component state of `Page.jsx` touched by `getRoleLinks`. -/
structure PageState where
  expressLink : Option String
  descLink : Option String
  videoLink : Option String
  loading : Bool
  error : Option String
  deriving DecidableEq, Repr

/-- Outcome of the `fetch("/api/role-links")` round-trip: an OK response
carrying the three (possibly absent) link fields, a non-OK HTTP status, or a
thrown fetch error. -/
inductive RoleLinksOutcome where
  | ok (expressLink descLink videoLink : Option String)
  | httpError (status : Nat)
  | fetchFailed
  deriving DecidableEq, Repr

/-- `getRoleLinks` of `Page.jsx` (part_002 lines 63–91): the body first sets
`loading := true` and `error := null`; on an OK response it stores the
`express_link`, `desc_link` and `video_link` fields of the JSON body; a
non-OK status throws, and the `catch` sets the error message; the `finally`
sets `loading := false` in every case. -/
def getRoleLinks (st : PageState) (outcome : RoleLinksOutcome) : PageState :=
  let st1 : PageState := { st with loading := true, error := none }
  match outcome with
  | .ok e d v =>
    { st1 with expressLink := e, descLink := d, videoLink := v, loading := false }
  | .httpError _ =>
    { st1 with error := some "Failed to load role links. Please try again.", loading := false }
  | .fetchFailed =>
    { st1 with error := some "Failed to load role links. Please try again.", loading := false }

/-! ## Scoring engine, modelled from the spec

The backend scoring engine (`backend/model/matching_logic.py`, the `Matches`
class with `apply_answer`/`process_assessment`) is not among the available
sources; the definitions below are modelled from the specification (§3, §4.4):
each answer drives exactly one scoring category per role, `apply_answer`
recomputes that category's contribution and replaces it (delta adjustment),
eliminations are monotone within a session, and the per-category point
values follow the §4.4 table (values the spec leaves as a range are
instantiated inside that range). -/

/-- Modelled from the spec: work-environment preference {BTS, FRONT, NONE}. -/
inductive WorkPref where
  | bts
  | front
  | nopref
  deriving DecidableEq, Repr

/-- Modelled from the spec: `age_min` is an integer or the STUDENTS_ONLY
sentinel. -/
inductive AgeMin where
  | years (n : Nat)
  | studentsOnly
  deriving DecidableEq, Repr

/-- Modelled from the spec: `prior_first_exp` ∈ {REQUIRED, NOT_REQUIRED,
PREFERRED}. -/
inductive PriorExp where
  | required
  | notRequired
  | preferred
  deriving DecidableEq, Repr

/-- Modelled from the spec: game-knowledge levels, ordered
NONE < LIMITED < AVERAGE < THOROUGH. -/
inductive Know where
  | nothing
  | limited
  | average
  | thorough
  deriving DecidableEq, Repr

/-- Numeric rank of a knowledge level, for the ordered comparison. -/
def Know.rank : Know → Nat
  | .nothing => 0
  | .limited => 1
  | .average => 2
  | .thorough => 3

/-- Modelled from the spec: REGIONAL or DISTRICT event kind. -/
inductive EventKind where
  | regional
  | district
  deriving DecidableEq, Repr

/-- Modelled from the spec (§3): one `RoleDefinition` per catalog row.  The
free-text requirement fields are represented by their keyword-categorized
form (the list of category names the Keyword Categorizer extracts), with
`none` for the NONE / "unavailable" sentinel. -/
structure RoleDefinition where
  roleName : String
  workPref : WorkPref
  ageMin : AgeMin
  agePreference : Option Nat
  leadershipPref : Option Bool
  requiredSkills : Option (List String)
  requiredExperience : Option (List String)
  physicalReq : Option (List String)
  priorFirstExp : PriorExp
  basicGameKnowledge : Know
  regionalsDays : Option (List Nat)
  districtDays : Option (List Nat)
  deriving DecidableEq, Repr

/-- Modelled from the spec (§3): the derived answer values consumed by
scoring, one constructor per scoring category. -/
inductive AnswerValue where
  | age (years : Nat) (student : Bool)
  | physicalActivity (level : Nat)
  | mobility (cats : List String)
  | timeCommit (kind : EventKind) (days : List Nat)
  | workPrefAns (p : Option WorkPref)
  | leadership (p : Option Bool)
  | firstExp (experienced : Bool)
  | gameKnowledge (k : Know)
  | skills (skillCats expCats : List String)
  deriving DecidableEq, Repr

/-- Modelled from the spec: age eligibility — numeric `age_min` requires
`years ≥ min`; STUDENTS_ONLY requires student status. -/
def ageEligible (role : RoleDefinition) (years : Nat) (student : Bool) : Bool :=
  match role.ageMin with
  | .years m => m ≤ years
  | .studentsOnly => student

/-- Modelled from the spec (§4.4): 5 points for a perfect age match (the
role's `age_preference`), 3 for an acceptable match, 0 when ineligible. -/
def agePoints (role : RoleDefinition) (years : Nat) (student : Bool) : Int :=
  if ageEligible role years student then
    match role.agePreference with
    | some p => if years = p then 5 else 3
    | none => 3
  else 0

/-- Modelled from the spec (§4.4): the age elimination condition — below
`age_min` without the student override. -/
def ageElim (role : RoleDefinition) (years : Nat) (student : Bool) : Bool :=
  !ageEligible role years student

/-- Modelled from the spec (§4.4): physical-activity sub-check, 5–8 points,
no elimination; 0 when the role's requirement is unmatched. -/
def physicalActivityPoints (role : RoleDefinition) (level : Nat) : Int :=
  match role.physicalReq with
  | none => 5
  | some _ => if 1 ≤ level then 8 else 0

/-- Modelled from the spec (§4.4): mobility-keyword sub-check against
`physical_req`, 5–8 points, no elimination; 0 when unmatched. -/
def mobilityPoints (role : RoleDefinition) (cats : List String) : Int :=
  match role.physicalReq with
  | none => 5
  | some reqs => if reqs.all (fun r => cats.contains r) then 8 else 0

/-- Modelled from the spec (§4.2): comparison of the volunteer's day set with
the role's day set: EXACT (equal as sets), COMPATIBLE (nonempty
intersection), DISJOINT. -/
inductive TimeFit where
  | exact
  | compatible
  | disjoint
  deriving DecidableEq, Repr

/-- Modelled from the spec (§4.2): grade the day-set overlap. -/
def compareDays (vol roleDays : List Nat) : TimeFit :=
  if vol.all (fun d => roleDays.contains d) ∧ roleDays.all (fun d => vol.contains d) then
    .exact
  else if vol.any (fun d => roleDays.contains d) then
    .compatible
  else
    .disjoint

/-- The role's day commitment for the given event kind. -/
def roleDaysFor (role : RoleDefinition) (kind : EventKind) : Option (List Nat) :=
  match kind with
  | .regional => role.regionalsDays
  | .district => role.districtDays

/-- Modelled from the spec (§4.4): time-commitment points graded by
EXACT/COMPATIBLE/DISJOINT; an UNAVAILABLE role contributes 0. -/
def timePoints (role : RoleDefinition) (kind : EventKind) (days : List Nat) : Int :=
  match roleDaysFor role kind with
  | none => 0
  | some rd =>
    match compareDays days rd with
    | .exact => 8
    | .compatible => 5
    | .disjoint => 0

/-- Modelled from the spec (§4.4): time elimination — the role is
UNAVAILABLE for the requested event kind. -/
def timeElim (role : RoleDefinition) (kind : EventKind) : Bool :=
  (roleDaysFor role kind).isNone

/-- Modelled from the spec (§4.4): work-preference points — 5 on alignment,
a NONE preference is never penalized. -/
def workPrefPoints (role : RoleDefinition) (p : Option WorkPref) : Int :=
  match p with
  | none => 0
  | some pref => if role.workPref = pref then 5 else 0

/-- Modelled from the spec (§4.4): leadership points — 5 on alignment,
no-preference answers never penalized. -/
def leadershipPoints (role : RoleDefinition) (p : Option Bool) : Int :=
  match p with
  | none => 0
  | some b => if role.leadershipPref = some b then 5 else 0

/-- Modelled from the spec (§4.4): optional leadership elimination on an
explicit mismatch. -/
def leadershipElim (role : RoleDefinition) (p : Option Bool) : Bool :=
  match p with
  | none => false
  | some b => role.leadershipPref = some (!b)

/-- Modelled from the spec (§4.4): FIRST-experience points — 8
(required+experienced), 5 (preferred+experienced), −2
(preferred+inexperienced), 3 (none-required+experienced), 5
(none-required+inexperienced). -/
def firstExpPoints (role : RoleDefinition) (experienced : Bool) : Int :=
  match role.priorFirstExp with
  | .required => if experienced then 8 else 0
  | .preferred => if experienced then 5 else -2
  | .notRequired => if experienced then 3 else 5

/-- Modelled from the spec (§4.4): game-knowledge points — 8 for an exact
level match, 5 when the volunteer's level exceeds the role's. -/
def knowledgePoints (role : RoleDefinition) (k : Know) : Int :=
  if k = role.basicGameKnowledge then 8
  else if role.basicGameKnowledge.rank ≤ k.rank then 5
  else 0

/-- Modelled from the spec (§4.4): optional knowledge elimination when the
volunteer's level is below the role's. -/
def knowledgeElim (role : RoleDefinition) (k : Know) : Bool :=
  k.rank < role.basicGameKnowledge.rank

/-- Modelled from the spec (§4.4): 8 points for a matched required-skill
category; the NONE sentinel always matches. -/
def skillPoints (role : RoleDefinition) (cats : List String) : Int :=
  match role.requiredSkills with
  | none => 8
  | some reqs => if reqs.any (fun r => cats.contains r) then 8 else 0

/-- Modelled from the spec (§4.4): 3 points for a matched
required-experience category; the NONE sentinel always matches. -/
def expReqPoints (role : RoleDefinition) (cats : List String) : Int :=
  match role.requiredExperience with
  | none => 3
  | some reqs => if reqs.any (fun r => cats.contains r) then 3 else 0

/-- Modelled from the spec (§3): a per-role `ScoreRecord`, holding the
current contribution of each scoring category (so that re-applying an answer
replaces its category's contribution instead of double-adding) and the
monotone elimination flag. -/
structure ScoreRecord where
  ageC : Int
  physActC : Int
  mobilityC : Int
  timeRC : Int
  timeDC : Int
  workC : Int
  leadC : Int
  expC : Int
  knowC : Int
  skillC : Int
  eliminated : Bool
  deriving DecidableEq, Repr

/-- The accumulated score: the sum of the category contributions. -/
def ScoreRecord.score (r : ScoreRecord) : Int :=
  r.ageC + r.physActC + r.mobilityC + r.timeRC + r.timeDC + r.workC + r.leadC +
    r.expC + r.knowC + r.skillC

/-- Modelled from the spec: the score record a session starts from — every
contribution 0, not eliminated. -/
def initialRecord : ScoreRecord :=
  { ageC := 0, physActC := 0, mobilityC := 0, timeRC := 0, timeDC := 0,
    workC := 0, leadC := 0, expC := 0, knowC := 0, skillC := 0,
    eliminated := false }

/-- Modelled from the spec (§4.4): `apply_answer` for one role — recompute
the contribution of the answer's category, replace it in the record, and
`or` in the category's elimination condition when `eliminateUnqualified`
opts in. -/
def applyAnswer (role : RoleDefinition) (r : ScoreRecord) (a : AnswerValue)
    (eliminateUnqualified : Bool) : ScoreRecord :=
  match a with
  | .age years student =>
    { r with ageC := agePoints role years student,
             eliminated := r.eliminated || (eliminateUnqualified && ageElim role years student) }
  | .physicalActivity level =>
    { r with physActC := physicalActivityPoints role level }
  | .mobility cats =>
    { r with mobilityC := mobilityPoints role cats }
  | .timeCommit kind days =>
    match kind with
    | .regional =>
      { r with timeRC := timePoints role .regional days,
               eliminated := r.eliminated || (eliminateUnqualified && timeElim role .regional) }
    | .district =>
      { r with timeDC := timePoints role .district days,
               eliminated := r.eliminated || (eliminateUnqualified && timeElim role .district) }
  | .workPrefAns p =>
    { r with workC := workPrefPoints role p }
  | .leadership p =>
    { r with leadC := leadershipPoints role p,
             eliminated := r.eliminated || (eliminateUnqualified && leadershipElim role p) }
  | .firstExp experienced =>
    { r with expC := firstExpPoints role experienced }
  | .gameKnowledge k =>
    { r with knowC := knowledgePoints role k,
             eliminated := r.eliminated || (eliminateUnqualified && knowledgeElim role k) }
  | .skills skillCats expCats =>
    { r with skillC := skillPoints role skillCats + expReqPoints role expCats }

/-- Replay a list of `(answer, eliminate_unqualified)` events for one role,
starting from the empty record. -/
def replayRole (role : RoleDefinition) (answers : List (AnswerValue × Bool)) : ScoreRecord :=
  answers.foldl (fun r ab => applyAnswer role r ab.1 ab.2) initialRecord

/-- Modelled from the spec: the per-session engine state — a `ScoreRecord`
per catalog role (the catalog itself is read-only). -/
def initialState (catalog : List RoleDefinition) : List (RoleDefinition × ScoreRecord) :=
  catalog.map (fun role => (role, initialRecord))

/-- One `apply_answer` step over the whole state. -/
def stepState (st : List (RoleDefinition × ScoreRecord)) (ab : AnswerValue × Bool) :
    List (RoleDefinition × ScoreRecord) :=
  st.map (fun rr => (rr.1, applyAnswer rr.1 rr.2 ab.1 ab.2))

/-- Replay an ordered answer list from a given engine state. -/
def replayFrom (st : List (RoleDefinition × ScoreRecord))
    (answers : List (AnswerValue × Bool)) : List (RoleDefinition × ScoreRecord) :=
  answers.foldl stepState st

/-- Rehydration: replay an ordered answer list from the empty state of a
catalog. -/
def replay (catalog : List RoleDefinition) (answers : List (AnswerValue × Bool)) :
    List (RoleDefinition × ScoreRecord) :=
  replayFrom (initialState catalog) answers

/-- A sample benign catalog role used to instantiate universally quantified
theorems. -/
def sampleRole : RoleDefinition :=
  { roleName := "Field Reset"
    workPref := .front
    ageMin := .years 13
    agePreference := none
    leadershipPref := some false
    requiredSkills := none
    requiredExperience := none
    physicalReq := some ["General Mobility"]
    priorFirstExp := .notRequired
    basicGameKnowledge := .limited
    regionalsDays := some [1, 2, 3]
    districtDays := some [0, 1] }

/-- A role with `prior_first_exp = PREFERRED`, the case carrying the
documented −2 experience-mismatch penalty. -/
def prefExpRole : RoleDefinition :=
  { roleName := "Control System Advisor"
    workPref := .bts
    ageMin := .years 18
    agePreference := some 25
    leadershipPref := none
    requiredSkills := some ["Programming Proficiency"]
    requiredExperience := some ["FRC Control System Experience"]
    physicalReq := none
    priorFirstExp := .preferred
    basicGameKnowledge := .average
    regionalsDays := some [0, 1, 2, 3]
    districtDays := none }

/-! ## Helper lemmas -/

/-- `dropWhile` fixes every prefix of a list it fixes. -/
theorem dropWhile_eq_self_of_front {α : Type} {p : α → Bool} {l l' : List α}
    (h : l.dropWhile p = l) (hp : l' <+: l) : l'.dropWhile p = l' := by
  obtain ⟨rest, rfl⟩ := hp
  cases l' with
  | nil => rfl
  | cons a m =>
    have ha : ¬p a := by
      have := List.dropWhile_eq_self_iff.mp h (by simp)
      simpa using this
    simp [List.dropWhile_cons, ha]

/-- `jsTrim` in terms of Mathlib's `rdropWhile`. -/
theorem jsTrim_eq (s : List Char) :
    jsTrim s = List.rdropWhile isWS (s.dropWhile isWS) := rfl

/-- Trimming is idempotent: a trimmed string has no surrounding whitespace
left to strip. -/
theorem jsTrim_idem (s : List Char) : jsTrim (jsTrim s) = jsTrim s := by
  rw [jsTrim_eq, jsTrim_eq]
  have h1 : List.dropWhile isWS (s.dropWhile isWS) = s.dropWhile isWS :=
    List.dropWhile_idempotent isWS s
  have h2 : List.dropWhile isWS (List.rdropWhile isWS (s.dropWhile isWS)) =
      List.rdropWhile isWS (s.dropWhile isWS) :=
    dropWhile_eq_self_of_front h1 ( List.rdropWhile_prefix isWS (s.dropWhile isWS))
  rw [h2, List.rdropWhile_idempotent]

/-- Age points are never negative. -/
theorem agePoints_nonneg (role : RoleDefinition) (y : Nat) (s : Bool) :
    0 ≤ agePoints role y s := by
  unfold agePoints
  split
  · split <;> omega
  · omega

/-- Physical-activity points are never negative. -/
theorem physicalActivityPoints_nonneg (role : RoleDefinition) (l : Nat) :
    0 ≤ physicalActivityPoints role l := by
  unfold physicalActivityPoints
  split <;> omega

/-- Mobility points are never negative. -/
theorem mobilityPoints_nonneg (role : RoleDefinition) (cats : List String) :
    0 ≤ mobilityPoints role cats := by
  unfold mobilityPoints
  split <;> omega

/-- Time-commitment points are never negative. -/
theorem timePoints_nonneg (role : RoleDefinition) (kind : EventKind) (days : List Nat) :
    0 ≤ timePoints role kind days := by
  unfold timePoints
  split
  · omega
  · split <;> omega

/-- Work-preference points are never negative. -/
theorem workPrefPoints_nonneg (role : RoleDefinition) (p : Option WorkPref) :
    0 ≤ workPrefPoints role p := by
  unfold workPrefPoints
  split <;> omega

/-- Leadership points are never negative. -/
theorem leadershipPoints_nonneg (role : RoleDefinition) (p : Option Bool) :
    0 ≤ leadershipPoints role p := by
  unfold leadershipPoints
  split <;> omega

/-- The FIRST-experience contribution is bounded below by the −2 penalty. -/
theorem firstExpPoints_ge (role : RoleDefinition) (b : Bool) :
    -2 ≤ firstExpPoints role b := by
  unfold firstExpPoints
  split <;> split <;> omega

/-- Game-knowledge points are never negative. -/
theorem knowledgePoints_nonneg (role : RoleDefinition) (k : Know) :
    0 ≤ knowledgePoints role k := by
  unfold knowledgePoints
  split
  · omega
  · split <;> omega

/-- Skill points are never negative. -/
theorem skillPoints_nonneg (role : RoleDefinition) (cats : List String) :
    0 ≤ skillPoints role cats := by
  unfold skillPoints
  split <;> omega

/-- Required-experience points are never negative. -/
theorem expReqPoints_nonneg (role : RoleDefinition) (cats : List String) :
    0 ≤ expReqPoints role cats := by
  unfold expReqPoints
  split <;> omega

/-- Invariant on a per-role record: every category contribution is
non-negative, except the FIRST-experience one, which is at least −2. -/
def GoodRecord (r : ScoreRecord) : Prop :=
  0 ≤ r.ageC ∧ 0 ≤ r.physActC ∧ 0 ≤ r.mobilityC ∧ 0 ≤ r.timeRC ∧ 0 ≤ r.timeDC ∧
    0 ≤ r.workC ∧ 0 ≤ r.leadC ∧ -2 ≤ r.expC ∧ 0 ≤ r.knowC ∧ 0 ≤ r.skillC

/-- The starting record satisfies the invariant. -/
theorem goodRecord_initial : GoodRecord initialRecord := by
  simp [GoodRecord, initialRecord]

/-- `applyAnswer` preserves the invariant. -/
theorem goodRecord_apply (role : RoleDefinition) (r : ScoreRecord) (a : AnswerValue)
    (e : Bool) (h : GoodRecord r) : GoodRecord (applyAnswer role r a e) := by
  obtain ⟨h1, h2, h3, h4, h5, h6, h7, h8, h9, h10⟩ := h
  cases a with
  | age y s =>
    exact ⟨agePoints_nonneg role y s, h2, h3, h4, h5, h6, h7, h8, h9, h10⟩
  | physicalActivity l =>
    exact ⟨h1, physicalActivityPoints_nonneg role l, h3, h4, h5, h6, h7, h8, h9, h10⟩
  | mobility cats =>
    exact ⟨h1, h2, mobilityPoints_nonneg role cats, h4, h5, h6, h7, h8, h9, h10⟩
  | timeCommit kind days =>
    cases kind with
    | regional =>
      exact ⟨h1, h2, h3, timePoints_nonneg role .regional days, h5, h6, h7, h8, h9, h10⟩
    | district =>
      exact ⟨h1, h2, h3, h4, timePoints_nonneg role .district days, h6, h7, h8, h9, h10⟩
  | workPrefAns p =>
    exact ⟨h1, h2, h3, h4, h5, workPrefPoints_nonneg role p, h7, h8, h9, h10⟩
  | leadership p =>
    exact ⟨h1, h2, h3, h4, h5, h6, leadershipPoints_nonneg role p, h8, h9, h10⟩
  | firstExp b =>
    exact ⟨h1, h2, h3, h4, h5, h6, h7, firstExpPoints_ge role b, h9, h10⟩
  | gameKnowledge k =>
    exact ⟨h1, h2, h3, h4, h5, h6, h7, h8, knowledgePoints_nonneg role k, h10⟩
  | skills sc ec =>
    refine ⟨h1, h2, h3, h4, h5, h6, h7, h8, h9, ?_⟩
    have := skillPoints_nonneg role sc
    have := expReqPoints_nonneg role ec
    simp only [applyAnswer]
    omega

/-- The invariant holds along any fold of `applyAnswer` steps. -/
theorem goodRecord_foldl (role : RoleDefinition) (answers : List (AnswerValue × Bool)) :
    ∀ r : ScoreRecord, GoodRecord r →
      GoodRecord (answers.foldl (fun r ab => applyAnswer role r ab.1 ab.2) r) := by
  induction answers with
  | nil => exact fun r h => h
  | cons ab rest ih =>
    intro r h
    exact ih _ (goodRecord_apply role r ab.1 ab.2 h)

/-- The invariant bounds the score from below by −2. -/
theorem score_ge_of_goodRecord (r : ScoreRecord) (h : GoodRecord r) : -2 ≤ r.score := by
  obtain ⟨h1, h2, h3, h4, h5, h6, h7, h8, h9, h10⟩ := h
  unfold ScoreRecord.score
  omega

/-! ## Claim theorems -/

/-- Claim C1: for a result object whose "Best fit roles" field is a
(nonempty) comma-joined string of role names, the Results page derives its
options by trimming the whole string and splitting on the comma, renders at
most the first 3 entries as buttons, and every rendered label and every role
name passed to navigation is trimmed of surrounding whitespace. -/
theorem c1_results_options_trimmed (s : List Char) (hs : s ≠ []) :
    optionsEffect (some s) = jsSplit ',' (jsTrim s)
    ∧ (renderButtons (optionsEffect (some s))).length ≤ 3
    ∧ renderButtons (optionsEffect (some s)) =
        ((optionsEffect (some s)).take 3).map
          (fun o => { label := jsTrim o, navRoleName := dynamicButtonClick o })
    ∧ ∀ b ∈ renderButtons (optionsEffect (some s)),
        jsTrim b.label = b.label ∧ jsTrim b.navRoleName = b.navRoleName := by
  refine ⟨by simp [optionsEffect, hs], ?_, rfl, ?_⟩
  · simp only [renderButtons, List.length_map, List.length_take]
    omega
  · intro b hb
    simp only [renderButtons, List.mem_map] at hb
    obtain ⟨o, _, rfl⟩ := hb
    exact ⟨jsTrim_idem o, jsTrim_idem o⟩

/-- Witness for C1 at the concrete wire string " Referee, Field Reset ". -/
theorem c1_results_options_trimmed_witness :
    optionsEffect (some (' ' :: 'R' :: ',' :: ' ' :: 'F' :: ' ' :: [])) =
        jsSplit ',' (jsTrim (' ' :: 'R' :: ',' :: ' ' :: 'F' :: ' ' :: []))
    ∧ (renderButtons (optionsEffect (some (' ' :: 'R' :: ',' :: ' ' :: 'F' :: ' ' :: [])))).length ≤ 3
    ∧ renderButtons (optionsEffect (some (' ' :: 'R' :: ',' :: ' ' :: 'F' :: ' ' :: []))) =
        ((optionsEffect (some (' ' :: 'R' :: ',' :: ' ' :: 'F' :: ' ' :: []))).take 3).map
          (fun o => { label := jsTrim o, navRoleName := dynamicButtonClick o })
    ∧ ∀ b ∈ renderButtons (optionsEffect (some (' ' :: 'R' :: ',' :: ' ' :: 'F' :: ' ' :: []))),
        jsTrim b.label = b.label ∧ jsTrim b.navRoleName = b.navRoleName :=
  c1_results_options_trimmed (' ' :: 'R' :: ',' :: ' ' :: 'F' :: ' ' :: []) (by decide)

/-- Claim C2: `addCompletedQuestion` binds the id to exactly the one-element
list `[answer]`; a later answer for the same id replaces the earlier one, so
re-applying with the same answer is idempotent; `setCompletedQuestionsMulti`
likewise replaces the whole list bound to the id. -/
theorem c2_completedQuestions_replace (m : QMap) (i : Nat) (a b : String)
    (xs ys : List String) :
    addCompletedQuestion m i a i = some [a]
    ∧ addCompletedQuestion (addCompletedQuestion m i a) i b = addCompletedQuestion m i b
    ∧ addCompletedQuestion (addCompletedQuestion m i a) i a = addCompletedQuestion m i a
    ∧ setCompletedQuestionsMulti m i xs i = some xs
    ∧ setCompletedQuestionsMulti (setCompletedQuestionsMulti m i xs) i ys =
        setCompletedQuestionsMulti m i ys := by
  refine ⟨by simp [addCompletedQuestion], ?_, ?_, by simp [setCompletedQuestionsMulti], ?_⟩ <;>
    funext j <;>
    by_cases h : j = i <;>
    simp [addCompletedQuestion, setCompletedQuestionsMulti, h]

/-- Claim C3 counterexample: with the per-category points of the spec's
§4.4 table, a role with `prior_first_exp = PREFERRED` and an inexperienced
volunteer receives the −2 experience-mismatch contribution; when that answer
is the first one applied, the accumulated score is −2 < 0, refuting
"score ≥ 0 at every point". -/
theorem c3_score_negative_cex :
    ¬ (0 ≤ (replayRole prefExpRole [(.firstExp false, false)]).score) := by
  decide

/-- Claim C3 (amended): every role's score starts at 0, every category
contribution except the FIRST-experience one is non-negative, the experience
contribution is at least −2, and hence the accumulated score is bounded below
by −2 (not 0) at every point of a session. -/
theorem c3_amended_score_bound (role : RoleDefinition)
    (answers : List (AnswerValue × Bool)) :
    (replayRole role []).score = 0
    ∧ GoodRecord (replayRole role answers)
    ∧ -2 ≤ (replayRole role answers).score := by
  have hg : GoodRecord (replayRole role answers) :=
    goodRecord_foldl role answers initialRecord goodRecord_initial
  exact ⟨rfl, hg, score_ge_of_goodRecord _ hg⟩

/-- Claim C4: replaying an ordered answer list through `apply_answer` from
the empty scoring state is deterministic — two rehydrations from the empty
state (e.g. on different workers) yield equal score maps and elimination
flags, and replay of a concatenation continues exactly from the replay of
the first part (mid-session rehydration reproduces the live state). -/
theorem c4_replay_deterministic (catalog : List RoleDefinition)
    (answers l1 l2 : List (AnswerValue × Bool))
    (s s' : List (RoleDefinition × ScoreRecord))
    (h : s = initialState catalog) (h' : s' = initialState catalog) :
    replayFrom s answers = replayFrom s' answers
    ∧ replayFrom s answers = replay catalog answers
    ∧ replay catalog (l1 ++ l2) = replayFrom (replay catalog l1) l2 := by
  subst h
  subst h'
  refine ⟨rfl, rfl, ?_⟩
  unfold replay replayFrom
  simp [List.foldl_append]

/-- Witness for C4 at a concrete catalog and answer lists. -/
theorem c4_replay_deterministic_witness :
    replayFrom (initialState [sampleRole]) [(.age 16 false, true)] =
        replayFrom (initialState [sampleRole]) [(.age 16 false, true)]
    ∧ replayFrom (initialState [sampleRole]) [(.age 16 false, true)] =
        replay [sampleRole] [(.age 16 false, true)]
    ∧ replay [sampleRole] ([(.firstExp true, false)] ++ [(.gameKnowledge .limited, true)]) =
        replayFrom (replay [sampleRole] [(.firstExp true, false)]) [(.gameKnowledge .limited, true)] :=
  c4_replay_deterministic [sampleRole] [(.age 16 false, true)]
    [(.firstExp true, false)] [(.gameKnowledge .limited, true)]
    (initialState [sampleRole]) (initialState [sampleRole]) rfl rfl

/-- A save attempt whose round-trip failed (non-OK HTTP status or thrown
fetch error). -/
def SaveOutcome.failed : SaveOutcome → Bool
  | .ok _ => false
  | .httpError _ => true
  | .fetchFailed => true

/-- Claim C5: on every failed save (non-OK HTTP status or thrown fetch
error) `saveAnswer` catches the error, records the temporary warning
message, and returns normally, leaving `questionId`, `sessionId` and the
`completedQuestions` map unchanged. -/
theorem c5_saveAnswer_failure (st : QuestionnaireState) (sid : String) (qid : Int)
    (outcome : SaveOutcome) (hsid : sid ≠ "") (hfail : outcome.failed = true) :
    saveAnswer st (some sid) qid true outcome =
      { st with error := some "Failed to save answer - your progress may not be saved" }
    ∧ (saveAnswer st (some sid) qid true outcome).questionId = st.questionId
    ∧ (saveAnswer st (some sid) qid true outcome).sessionId = st.sessionId
    ∧ (saveAnswer st (some sid) qid true outcome).completedQuestions = st.completedQuestions := by
  have key : saveAnswer st (some sid) qid true outcome =
      { st with error := some "Failed to save answer - your progress may not be saved" } := by
    cases outcome <;> simp_all [saveAnswer, saveAnswerTry, jsTruthy, SaveOutcome.failed]
  exact ⟨key, by rw [key], by rw [key], by rw [key]⟩

/-- Witness for C5 at a concrete state and a thrown fetch error. -/
theorem c5_saveAnswer_failure_witness :
    saveAnswer ⟨3, some "abc", fun _ => none, none, none, 11⟩ (some "abc") 3 true .fetchFailed =
      { (⟨3, some "abc", fun _ => none, none, none, 11⟩ : QuestionnaireState) with
          error := some "Failed to save answer - your progress may not be saved" }
    ∧ (saveAnswer ⟨3, some "abc", fun _ => none, none, none, 11⟩ (some "abc") 3 true .fetchFailed).questionId =
        (⟨3, some "abc", fun _ => none, none, none, 11⟩ : QuestionnaireState).questionId
    ∧ (saveAnswer ⟨3, some "abc", fun _ => none, none, none, 11⟩ (some "abc") 3 true .fetchFailed).sessionId =
        (⟨3, some "abc", fun _ => none, none, none, 11⟩ : QuestionnaireState).sessionId
    ∧ (saveAnswer ⟨3, some "abc", fun _ => none, none, none, 11⟩ (some "abc") 3 true .fetchFailed).completedQuestions =
        (⟨3, some "abc", fun _ => none, none, none, 11⟩ : QuestionnaireState).completedQuestions :=
  c5_saveAnswer_failure ⟨3, some "abc", fun _ => none, none, none, 11⟩ "abc" 3 .fetchFailed
    (by decide) rfl

/-- Claim C6: `addCompletedQuestion`, `setCompletedQuestionsMulti` and
`removeCompletedQuestion` leave the binding of every other question id
unchanged, and `removeCompletedQuestion` is the identity when the id is not
a key of the map. -/
theorem c6_completedQuestions_frame (m : QMap) (i j : Nat) (a : String)
    (xs : List String) (h : j ≠ i) :
    addCompletedQuestion m i a j = m j
    ∧ setCompletedQuestionsMulti m i xs j = m j
    ∧ removeCompletedQuestion m i j = m j
    ∧ (m i = none → removeCompletedQuestion m i = m) := by
  refine ⟨by simp [addCompletedQuestion, h], by simp [setCompletedQuestionsMulti, h], ?_, ?_⟩
  · unfold removeCompletedQuestion
    split <;> simp [h]
  · intro hi
    unfold removeCompletedQuestion
    simp [hi]

/-- Witness for C6 at a concrete map and distinct ids. -/
theorem c6_completedQuestions_frame_witness :
    addCompletedQuestion (fun _ => none) 0 "a" 1 = (fun _ => none : QMap) 1
    ∧ setCompletedQuestionsMulti (fun _ => none) 0 ["b"] 1 = (fun _ => none : QMap) 1
    ∧ removeCompletedQuestion (fun _ => none) 0 1 = (fun _ => none : QMap) 1
    ∧ ((fun _ => none : QMap) 0 = none →
        removeCompletedQuestion (fun _ => none) 0 = (fun _ => none : QMap)) :=
  c6_completedQuestions_frame (fun _ => none) 0 1 "a" ["b"] (by decide)

/-- Claim C7: `getRoleLinks` either succeeds and sets the three link states
from the response's `express_link`, `desc_link` and `video_link` fields, or,
on a non-OK HTTP status or fetch failure, sets the error message
"Failed to load role links. Please try again." while leaving the three link
states at their previous values; in every case `loading` ends up `false`. -/
theorem c7_getRoleLinks_cases (st : PageState) (e d v : Option String) (status : Nat) :
    getRoleLinks st (.ok e d v) =
      { expressLink := e, descLink := d, videoLink := v, loading := false, error := none }
    ∧ getRoleLinks st (.httpError status) =
      { st with error := some "Failed to load role links. Please try again.", loading := false }
    ∧ getRoleLinks st .fetchFailed =
      { st with error := some "Failed to load role links. Please try again.", loading := false } :=
  ⟨rfl, rfl, rfl⟩

/-- Claim C8 counterexample: when the "Best fit roles" field is the empty
string, the truthiness guard `if (currentResults?.results?.["Best fit roles"])`
is falsy, so the page computes `options = []` (not `[""]`) and renders zero
buttons rather than one empty-labelled button. -/
theorem c8_empty_string_cex :
    optionsEffect (some []) ≠ [[]]
    ∧ (renderButtons (optionsEffect (some []))).length ≠ 1 := by
  decide

/-- Claim C8 (amended): if the "Best fit roles" field is the empty string,
the empty string is falsy in the guard, so the options effect takes the else
branch: `options = []` and no buttons are rendered; the `|| []` fallback on
the split is still never the cause (the split is never reached). -/
theorem c8_empty_string_renders_nothing :
    optionsEffect (some []) = []
    ∧ renderButtons (optionsEffect (some [])) = [] := by
  decide

/-- Claim C9: clicking the currently selected option deselects it — the
handler clears the selection, removes the question's entry from the local
`completedQuestions` map, and issues no `saveAnswer` call (so the persisted
backend answer is untouched); `saveAnswer` is invoked exactly on the
selection branch. -/
theorem c9_deselect_no_save (selected : Option String) (cq : QMap) (dataId : Nat)
    (question : String) (sessionId : Option String) (optionKey : String)
    (h : selected = some optionKey) :
    (handleButtonClick selected cq dataId question sessionId optionKey).saveCalls = []
    ∧ (handleButtonClick selected cq dataId question sessionId optionKey).selectedButton = none
    ∧ (handleButtonClick selected cq dataId question sessionId optionKey).completedQuestions =
        removeCompletedQuestion cq dataId
    ∧ (handleButtonClick selected cq dataId question sessionId optionKey).completedQuestions dataId = none
    ∧ ∀ sel' : Option String, sel' ≠ some optionKey →
        (handleButtonClick sel' cq dataId question sessionId optionKey).saveCalls =
          [{ sessionId := sessionId, questionId := dataId,
             answer := optionKey, question := question }] := by
  refine ⟨by simp [handleButtonClick, h], by simp [handleButtonClick, h],
    by simp [handleButtonClick, h], ?_, ?_⟩
  · simp only [handleButtonClick, h, if_pos]
    unfold removeCompletedQuestion
    split
    · simp
    · simp_all [Option.not_isSome_iff_eq_none]
  · intro sel' hne
    simp [handleButtonClick, hne]

/-- Witness for C9 at a concrete selected option. -/
theorem c9_deselect_no_save_witness :
    (handleButtonClick (some "2") (fun _ => none) 4 "q" (some "s") "2").saveCalls = []
    ∧ (handleButtonClick (some "2") (fun _ => none) 4 "q" (some "s") "2").selectedButton = none
    ∧ (handleButtonClick (some "2") (fun _ => none) 4 "q" (some "s") "2").completedQuestions =
        removeCompletedQuestion (fun _ => none) 4
    ∧ (handleButtonClick (some "2") (fun _ => none) 4 "q" (some "s") "2").completedQuestions 4 = none
    ∧ ∀ sel' : Option String, sel' ≠ some "2" →
        (handleButtonClick sel' (fun _ => none) 4 "q" (some "s") "2").saveCalls =
          [{ sessionId := some "s", questionId := 4, answer := "2", question := "q" }] :=
  c9_deselect_no_save (some "2") (fun _ => none) 4 "q" (some "s") "2" rfl

/-- Claim C10: `handleNextClick` advances by 3 exactly when
`questionId = 1 ∧ skipPhysicalQuestions`, else by 1; `handleBackClick` moves
back by 3 exactly when `questionId = 4 ∧ skipPhysicalQuestions`, else by 1;
hence "Next then Back" restores the original question id except in the one
case `skipPhysicalQuestions = true, questionId = 3`, where it lands on 1. -/
theorem c10_navigation_roundtrip (q : Int) (skip : Bool) :
    handleNextClick q skip = q + (if q = 1 ∧ skip = true then 3 else 1)
    ∧ handleBackClick q skip = q - (if q = 4 ∧ skip = true then 3 else 1)
    ∧ handleBackClick (handleNextClick q skip) skip =
        (if skip = true ∧ q = 3 then 1 else q) := by
  refine ⟨?_, ?_, ?_⟩ <;>
    cases skip <;>
    by_cases h1 : q = 1 <;> by_cases h3 : q = 3 <;> by_cases h4 : q = 4 <;>
    simp_all [handleNextClick, handleBackClick, handleNextAnswerClick,
      handleBackAnswerClick] <;>
    omega
